import Mathlib

/-!
Shallow embedding of the Redactor plugin orchestration core (src/main.ts):
token maps, the vault, the three user-triggered orchestrators
(whole-document redaction, restoration, inline selection redaction), and
the server health poller. Network calls and persistence outcomes are
modelled as oracle parameters; user-visible effects are recorded as an
ordered event list.
-/

/-- A token map, the `tokens: Record<string, string>` of a map file.
Modelled as an association list; JS objects have unique keys, and lookup
returns the first binding. -/
abbrev Tokens := List (String × String)

/-- Lookup of a key in a token map (JS property access `m[k]`). -/
def Tokens.find (m : Tokens) (k : String) : Option String :=
  match m with
  | [] => none
  | (k2, v) :: rest => if k2 = k then some v else Tokens.find rest k

/-- The key list of a token map (`Object.keys`). -/
def Tokens.keys (m : Tokens) : List String := List.map Prod.fst m

/-- JS object spread `{ ...m, ...f }` as performed at src/main.ts line 394
(`tokens: { ...existingTokens, ...response.map }`): keys of `m` first, each
overridden by the value from `f` when `f` also binds it, followed by the
keys of `f` that `m` does not bind. -/
def mergeTokens (m f : Tokens) : Tokens :=
  List.map (fun kv => (kv.1, Option.getD (Tokens.find f kv.1) kv.2)) m
  ++ List.filter (fun kv => (Tokens.find m kv.1).isNone) f

/-- Persisted map file format (interface MapFile, src/main.ts lines 68-72). -/
structure MapFile where
  file : String
  created : String
  tokens : Tokens
deriving DecidableEq, Repr

/-- Content of a vault file as far as the orchestrators inspect it: a
document text, a well-formed serialized map file (JSON.parse succeeds and
yields a MapFile record), or unparsable bytes (JSON.parse throws). -/
inductive FileContent where
  | doc (text : String)
  | mapJson (m : MapFile)
  | corrupt
deriving DecidableEq, Repr

/-- The vault: path to content. -/
abbrev Vault := List (String × FileContent)

/-- `getAbstractFileByPath` plus read: content at a path, if present. -/
def Vault.lookup (v : Vault) (p : String) : Option FileContent :=
  match v with
  | [] => none
  | (q, d) :: rest => if q = p then some d else Vault.lookup rest p

/-- `saveVaultFile` (src/main.ts lines 483-495): modify the file if it
exists, create it otherwise (upsert). -/
def Vault.save (v : Vault) (p : String) (c : FileContent) : Vault :=
  match v with
  | [] => [(p, c)]
  | (q, d) :: rest => if q = p then (p, c) :: rest else (q, d) :: Vault.save rest p c

/-- Mutable plugin state touched by the orchestrators: the cached health
flag `serverOnline` (src/main.ts line 109) and the vault. -/
structure World where
  serverOnline : Bool
  vault : Vault
deriving DecidableEq, Repr

/-- Plugin settings (interface RedactorSettings, src/main.ts lines 33-39). -/
structure RedactorSettings where
  serverUrl : String
  redactFolder : String
  restoreFolder : String
  mapsFolder : String
  deepScan : Bool
deriving DecidableEq, Repr

/-- A file handle (TFile): vault path and display name. -/
structure VFile where
  path : String
  name : String
deriving DecidableEq, Repr

/-- Body of a successful POST /redact response (interface RedactResponse,
src/main.ts lines 46-50). -/
structure RedactResponse where
  redacted_text : String
  map : Tokens
  entity_counts : List (String × Nat)
deriving DecidableEq, Repr

/-- Body of a successful POST /restore response (interface RestoreResponse,
src/main.ts lines 57-59). -/
structure RestoreResponse where
  restored_text : String
deriving DecidableEq, Repr

/-- User-visible and externally observable effects, in program order. -/
inductive Event where
  | netCall (url : String)
  | notice (msg : String)
  | write (path : String) (content : FileContent)
  | openFile (path : String)
  | replaceSelection (text : String)
  | uiRefresh
deriving DecidableEq, Repr

/-- The offline Notice text shared by assertOnline and the request
catch blocks (src/main.ts lines 239, 317, 370, 501). -/
def offlineNotice : String := "Redactor: server offline — start run_phi.py first"

/-- Map file path for a document, as built at src/main.ts lines 257, 278
and 380. -/
def mapPathFor (s : RedactorSettings) (fileName : String) : String :=
  s.mapsFolder ++ "/" ++ fileName ++ ".map.json"

/-- LABEL_DISPLAY (src/main.ts lines 84-96). -/
def LABEL_DISPLAY : Tokens :=
  [("PERSON", "names"), ("COMPANY", "companies"), ("PHONE", "phones"),
   ("EMAIL", "emails"), ("ADDRESS", "locations"), ("POSTCODE", "postcodes"),
   ("TAX", "tax IDs"), ("NI", "NI numbers"), ("DATE", "dates"),
   ("URL", "URLs"), ("CURRENCY", "amounts")]

/-- `Object.values(counts).reduce((a, b) => a + b, 0)` (src/main.ts
lines 403-406 and 510). -/
def countTotal (counts : List (String × Nat)) : Nat :=
  List.foldl (fun a b => a + b) 0 (List.map Prod.snd counts)

/-- buildCountSummary (src/main.ts lines 509-517). -/
def buildCountSummary (counts : List (String × Nat)) : String :=
  if countTotal counts = 0 then "Redacted: no entities found"
  else
    let parts := List.map
      (fun kv => toString kv.2 ++ " " ++
        Option.getD (Tokens.find LABEL_DISPLAY kv.1) (String.toLower kv.1))
      (List.filter (fun kv => 0 < kv.2) counts)
    "Redacted: " ++ String.intercalate ", " parts

/-- The Notice shown by redactSelectedText on success (src/main.ts
lines 403-409). -/
def selectionSummary (counts : List (String × Nat)) : String :=
  if countTotal counts = 0 then "No entities found in selection"
  else "Redacted " ++ toString (countTotal counts) ++ " entities in selection"

/-- `JSON.parse(raw) as MapFile` for restoration (src/main.ts line 289):
succeeds only on a well-formed map file. -/
def parseMapFile : FileContent → Option MapFile
  | FileContent.mapJson m => some m
  | _ => none

/-- `(JSON.parse(raw) as MapFile).tokens ?? {}` for the inline merge
(src/main.ts line 386), as the tokens if parsing succeeds. -/
def parseMapTokens : FileContent → Option Tokens
  | FileContent.mapJson m => some m.tokens
  | _ => none

/-- redactFile (src/main.ts lines 215-267). `detectResult` is the outcome
of the POST /redact call; `saveArtifactOk` and `saveMapOk` are the
outcomes of the two `saveVaultFile` calls inside the final try block
(artifact first; a failed artifact save skips the map save). -/
def redactFile (s : RedactorSettings) (w : World) (file : VFile)
    (detectResult : Except Unit RedactResponse) (now : String)
    (saveArtifactOk saveMapOk : Bool) : World × List Event :=
  if w.serverOnline then
    match Vault.lookup w.vault file.path with
    | some (FileContent.doc _text) =>
      match detectResult with
      | Except.error _ =>
        ({ w with serverOnline := false },
         [Event.netCall (s.serverUrl ++ "/redact"),
          Event.notice offlineNotice, Event.uiRefresh])
      | Except.ok response =>
        let redactedPath := s.redactFolder ++ "/" ++ file.name
        if saveArtifactOk then
          let v1 := Vault.save w.vault redactedPath (FileContent.doc response.redacted_text)
          let mapData : MapFile := ⟨file.name, now, response.map⟩
          let mapPath := mapPathFor s file.name
          if saveMapOk then
            ({ w with vault := Vault.save v1 mapPath (FileContent.mapJson mapData) },
             [Event.netCall (s.serverUrl ++ "/redact"),
              Event.write redactedPath (FileContent.doc response.redacted_text),
              Event.write mapPath (FileContent.mapJson mapData),
              Event.notice (buildCountSummary response.entity_counts),
              Event.openFile redactedPath])
          else
            ({ w with vault := v1 },
             [Event.netCall (s.serverUrl ++ "/redact"),
              Event.write redactedPath (FileContent.doc response.redacted_text),
              Event.notice "Redactor: could not save output files."])
        else
          (w, [Event.netCall (s.serverUrl ++ "/redact"),
               Event.notice "Redactor: could not save output files."])
    | _ => (w, [Event.notice ("Redactor: could not read " ++ file.name)])
  else (w, [Event.notice offlineNotice])

/-- restoreCurrentNote (src/main.ts lines 269-335). `activeFile` is the
workspace active file; `restoreResult` is the outcome of the POST /restore
call; `saveOk` the outcome of saving the restored artifact. -/
def restoreCurrentNote (s : RedactorSettings) (w : World) (activeFile : Option VFile)
    (restoreResult : Except Unit RestoreResponse) (saveOk : Bool) : World × List Event :=
  if w.serverOnline then
    match activeFile with
    | none => (w, [Event.notice "No active file."])
    | some file =>
      match Vault.lookup w.vault (mapPathFor s file.name) with
      | none =>
        (w, [Event.notice ("No map found for \"" ++ file.name ++ "\" — redact it first")])
      | some content =>
        match parseMapFile content with
        | none => (w, [Event.notice "Redactor: map file is missing or corrupted."])
        | some _mapData =>
          match Vault.lookup w.vault file.path with
          | some (FileContent.doc _text) =>
            match restoreResult with
            | Except.error _ =>
              ({ w with serverOnline := false },
               [Event.netCall (s.serverUrl ++ "/restore"),
                Event.notice offlineNotice, Event.uiRefresh])
            | Except.ok response =>
              let restoredPath := s.restoreFolder ++ "/" ++ file.name
              if saveOk then
                let v1 := Vault.save w.vault restoredPath (FileContent.doc response.restored_text)
                ({ w with vault := v1 },
                 [Event.netCall (s.serverUrl ++ "/restore"),
                  Event.write restoredPath (FileContent.doc response.restored_text),
                  Event.notice ("Restored \"" ++ file.name ++ "\" successfully"),
                  Event.openFile restoredPath])
              else
                (w, [Event.netCall (s.serverUrl ++ "/restore"),
                     Event.notice "Redactor: could not save restored file."])
          | _ => (w, [Event.notice ("Redactor: could not read " ++ file.name)])
  else (w, [Event.notice offlineNotice])

/-- redactSelectedText (src/main.ts lines 337-410). `selection` is the
editor selection; `ctxFile` the context file; `detectResult` the outcome of
the POST /redact call; `saveOk` the outcome of saving the merged map. The
selection is replaced in the editor (line 376) before the map block runs;
a corrupt or absent existing map contributes the empty token set. -/
def redactSelectedText (s : RedactorSettings) (w : World) (selection : String)
    (ctxFile : Option VFile) (detectResult : Except Unit RedactResponse)
    (now : String) (saveOk : Bool) : World × List Event :=
  if w.serverOnline then
    if selection = "" then (w, [Event.notice "No text selected."])
    else
      match ctxFile with
      | none => (w, [Event.notice "No active file."])
      | some file =>
        match detectResult with
        | Except.error _ =>
          ({ w with serverOnline := false },
           [Event.netCall (s.serverUrl ++ "/redact"),
            Event.notice offlineNotice, Event.uiRefresh])
        | Except.ok response =>
          let mapPath := mapPathFor s file.name
          let existingTokens : Tokens :=
            Option.getD (Option.bind (Vault.lookup w.vault mapPath) parseMapTokens) []
          let mapData : MapFile :=
            ⟨file.name, now, mergeTokens existingTokens response.map⟩
          if saveOk then
            ({ w with vault := Vault.save w.vault mapPath (FileContent.mapJson mapData) },
             [Event.netCall (s.serverUrl ++ "/redact"),
              Event.replaceSelection response.redacted_text,
              Event.write mapPath (FileContent.mapJson mapData),
              Event.notice (selectionSummary response.entity_counts)])
          else
            (w, [Event.netCall (s.serverUrl ++ "/redact"),
                 Event.replaceSelection response.redacted_text,
                 Event.notice "Redactor: selection redacted but map save failed."])
  else (w, [Event.notice offlineNotice])

/-- updateServerStatus (src/main.ts lines 437-448): probe GET /status,
record the outcome in `serverOnline`, refresh the UI; a failed probe is
state, never a raised error. -/
def updateServerStatus (s : RedactorSettings) (w : World)
    (probe : Except Unit Unit) : World × List Event :=
  match probe with
  | Except.ok _ =>
    ({ w with serverOnline := true },
     [Event.netCall (s.serverUrl ++ "/status"), Event.uiRefresh])
  | Except.error _ =>
    ({ w with serverOnline := false },
     [Event.netCall (s.serverUrl ++ "/status"), Event.uiRefresh])

/-- The field initializer `serverOnline = false` (src/main.ts line 109):
the cached health state before the first check completes. -/
def initialServerOnline : Bool := false

/-- Default settings fixture (src/main.ts lines 76-82). -/
def S0 : RedactorSettings :=
  ⟨"http://localhost:8765", "redact/redacted", "redact/reversed", "redact/maps", false⟩

/-- A concrete note handle used by witnesses. -/
def noteFile : VFile := ⟨"notes/a.md", "a.md"⟩

-- ── Token map lemmas ────────────────────────────────────────────────────────

theorem Tokens.find_isSome_iff_mem (m : Tokens) (k : String) :
    (Tokens.find m k).isSome ↔ k ∈ Tokens.keys m := by
  induction m with
  | nil => simp [Tokens.find, Tokens.keys]
  | cons kv rest ih =>
    obtain ⟨a, b⟩ := kv
    show (if a = k then some b else Tokens.find rest k).isSome = true
      ↔ k ∈ a :: Tokens.keys rest
    by_cases h : a = k
    · subst h
      simp
    · rw [if_neg h, List.mem_cons, ih]
      constructor
      · exact Or.inr
      · intro hor
        cases hor with
        | inl he => exact absurd he.symm h
        | inr hm => exact hm

theorem Tokens.find_append (l1 l2 : Tokens) (k : String) :
    Tokens.find (l1 ++ l2) k =
      match Tokens.find l1 k with
      | some v => some v
      | none => Tokens.find l2 k := by
  induction l1 with
  | nil => simp [Tokens.find]
  | cons kv rest ih =>
    obtain ⟨a, b⟩ := kv
    by_cases h : a = k <;> simp [Tokens.find, h, ih]

theorem Tokens.find_overrideMap (m f : Tokens) (k : String) :
    Tokens.find (List.map (fun kv => (kv.1, Option.getD (Tokens.find f kv.1) kv.2)) m) k
      = Option.map (fun v => Option.getD (Tokens.find f k) v) (Tokens.find m k) := by
  induction m with
  | nil => simp [Tokens.find]
  | cons kv rest ih =>
    obtain ⟨a, b⟩ := kv
    by_cases h : a = k
    · subst h
      simp [Tokens.find]
    · simp [Tokens.find, h, ih]

theorem Tokens.find_filterNew (m f : Tokens) (k : String)
    (hm : Tokens.find m k = none) :
    Tokens.find (List.filter (fun kv => (Tokens.find m kv.1).isNone) f) k
      = Tokens.find f k := by
  induction f with
  | nil => simp
  | cons kv rest ih =>
    obtain ⟨a, b⟩ := kv
    by_cases h : a = k
    · subst h
      simp [List.filter, Tokens.find, hm]
    · by_cases h2 : (Tokens.find m a).isNone <;>
        simp [List.filter, Tokens.find, h, h2, ih]

theorem mergeTokens_find (m f : Tokens) (k : String) :
    Tokens.find (mergeTokens m f) k =
      match Tokens.find m k with
      | some v => some (Option.getD (Tokens.find f k) v)
      | none => Tokens.find f k := by
  unfold mergeTokens
  rw [Tokens.find_append, Tokens.find_overrideMap]
  cases hm : Tokens.find m k with
  | none => simp [Tokens.find_filterNew m f k hm]
  | some v => simp

theorem mergeTokens_mem_keys (m f : Tokens) (k : String) :
    k ∈ Tokens.keys (mergeTokens m f) ↔ k ∈ Tokens.keys m ∨ k ∈ Tokens.keys f := by
  rw [← Tokens.find_isSome_iff_mem, ← Tokens.find_isSome_iff_mem,
    ← Tokens.find_isSome_iff_mem, mergeTokens_find]
  cases hm : Tokens.find m k <;> cases hf : Tokens.find f k <;> simp

theorem mergeTokens_length (m f : Tokens) :
    (Tokens.keys m).length ≤ (Tokens.keys (mergeTokens m f)).length := by
  simp only [mergeTokens, Tokens.keys, List.map_append, List.map_map,
    List.length_append, List.length_map]
  exact Nat.le_add_right _ _

theorem mergeTokens_nil (f : Tokens) : mergeTokens [] f = f := by
  simp [mergeTokens, Tokens.find]

theorem Vault.lookup_save_self (v : Vault) (p : String) (c : FileContent) :
    Vault.lookup (Vault.save v p c) p = some c := by
  induction v with
  | nil => simp [Vault.save, Vault.lookup]
  | cons qd rest ih =>
    obtain ⟨q, d⟩ := qd
    by_cases h : q = p <;> simp [Vault.save, Vault.lookup, h, ih]

-- ── Claim theorems ──────────────────────────────────────────────────────────

/-- Claim C1: inline-merge monotonicity. Merging a detect fragment `f` into
an existing token map `m` with the object spread of src/main.ts line 394
yields a map whose key set is exactly the union of the two key sets; a key
bound by both to the same value keeps that value; and the merged map never
has fewer keys than `m`. -/
theorem merge_monotonic (m f : Tokens) :
    (∀ k, k ∈ Tokens.keys (mergeTokens m f) ↔ (k ∈ Tokens.keys m ∨ k ∈ Tokens.keys f)) ∧
    (∀ k v, Tokens.find m k = some v → Tokens.find f k = some v →
      Tokens.find (mergeTokens m f) k = some v) ∧
    (Tokens.keys m).length ≤ (Tokens.keys (mergeTokens m f)).length := by
  refine ⟨fun k => mergeTokens_mem_keys m f k, fun k v hm hf => ?_, mergeTokens_length m f⟩
  rw [mergeTokens_find, hm, hf]
  rfl

theorem merge_monotonic_witness :
    Tokens.find
        (mergeTokens [("[PERSON_1]", "John Smith")]
          [("[PERSON_1]", "John Smith"), ("[PHONE_1]", "07911 123456")])
        "[PERSON_1]"
      = some "John Smith" :=
  (merge_monotonic _ _).2.1 "[PERSON_1]" "John Smith" (by decide) (by decide)

/-- Claim C3: offline fail-fast. With the cached health state OFFLINE, each
of the three user-triggered orchestrators returns immediately with only the
offline Notice: no network call is issued, no artifact or map is written,
and the world is unchanged. -/
theorem offline_fail_fast (s : RedactorSettings) (w : World) (file : VFile)
    (af : Option VFile) (sel : String) (cf : Option VFile)
    (d : Except Unit RedactResponse) (rr : Except Unit RestoreResponse)
    (now : String) (a b so : Bool)
    (hoff : w.serverOnline = false) :
    redactFile s w file d now a b = (w, [Event.notice offlineNotice]) ∧
    restoreCurrentNote s w af rr so = (w, [Event.notice offlineNotice]) ∧
    redactSelectedText s w sel cf d now so = (w, [Event.notice offlineNotice]) := by
  refine ⟨?_, ?_, ?_⟩ <;>
    simp [redactFile, restoreCurrentNote, redactSelectedText, hoff]

theorem offline_fail_fast_witness :
    redactFile S0 ⟨false, []⟩ noteFile (Except.error ()) "2024-01-01" true true
      = (⟨false, []⟩, [Event.notice offlineNotice]) :=
  (offline_fail_fast S0 ⟨false, []⟩ noteFile none "" none (Except.error ())
    (Except.error ()) "2024-01-01" true true true rfl).1

/-- Claim C4: restoration with no map file for the document fails with the
map-not-found Notice before any network call; no empty map is fabricated
and no restored artifact is written (the world is unchanged). -/
theorem map_absent_restoration (s : RedactorSettings) (w : World) (file : VFile)
    (rr : Except Unit RestoreResponse) (so : Bool)
    (hon : w.serverOnline = true)
    (hmap : Vault.lookup w.vault (mapPathFor s file.name) = none) :
    restoreCurrentNote s w (some file) rr so
      = (w, [Event.notice ("No map found for \"" ++ file.name ++ "\" — redact it first")]) := by
  simp [restoreCurrentNote, hon, hmap]

theorem map_absent_restoration_witness :
    restoreCurrentNote S0 ⟨true, [("notes/a.md", FileContent.doc "hello")]⟩
        (some noteFile) (Except.ok ⟨"hello"⟩) true
      = (⟨true, [("notes/a.md", FileContent.doc "hello")]⟩,
         [Event.notice ("No map found for \"" ++ "a.md" ++ "\" — redact it first")]) :=
  map_absent_restoration S0 ⟨true, [("notes/a.md", FileContent.doc "hello")]⟩
    noteFile (Except.ok ⟨"hello"⟩) true rfl (by decide)

/-- Claim C5: whole-document redaction persists a fresh TokenMap built only
from the fragment returned by this detect call: whatever the vault held
before (including a stale map from a prior run), the persisted map file is
exactly the document name, the creation timestamp, and the new fragment. -/
theorem fresh_map_on_full_redaction (s : RedactorSettings) (w : World) (file : VFile)
    (text : String) (r : RedactResponse) (now : String)
    (hon : w.serverOnline = true)
    (hread : Vault.lookup w.vault file.path = some (FileContent.doc text)) :
    Vault.lookup (redactFile s w file (Except.ok r) now true true).1.vault
        (mapPathFor s file.name)
      = some (FileContent.mapJson ⟨file.name, now, r.map⟩) := by
  simp [redactFile, hon, hread, Vault.lookup_save_self]

theorem fresh_map_on_full_redaction_witness :
    Vault.lookup
        (redactFile S0
          ⟨true, [("notes/a.md", FileContent.doc "Contact John Smith"),
                  (mapPathFor S0 "a.md",
                   FileContent.mapJson ⟨"a.md", "2024-01-01", [("[STALE_1]", "old")]⟩)]⟩
          noteFile
          (Except.ok ⟨"Contact [PERSON_1]", [("[PERSON_1]", "John Smith")], [("PERSON", 1)]⟩)
          "2024-01-02" true true).1.vault
        (mapPathFor S0 "a.md")
      = some (FileContent.mapJson ⟨"a.md", "2024-01-02", [("[PERSON_1]", "John Smith")]⟩) :=
  fresh_map_on_full_redaction S0
    ⟨true, [("notes/a.md", FileContent.doc "Contact John Smith"),
            (mapPathFor S0 "a.md",
             FileContent.mapJson ⟨"a.md", "2024-01-01", [("[STALE_1]", "old")]⟩)]⟩
    noteFile "Contact John Smith"
    ⟨"Contact [PERSON_1]", [("[PERSON_1]", "John Smith")], [("PERSON", 1)]⟩
    "2024-01-02" rfl (by decide)

/-- Claim C6: if the detect call of whole-document redaction fails, the
operation aborts before any write: the vault is untouched (no artifact, no
map), the cached health flag flips to false, and the failure is reported
with the service-offline Notice. -/
theorem detect_failure_aborts (s : RedactorSettings) (w : World) (file : VFile)
    (text : String) (now : String) (a b : Bool)
    (hon : w.serverOnline = true)
    (hread : Vault.lookup w.vault file.path = some (FileContent.doc text)) :
    redactFile s w file (Except.error ()) now a b
      = ({ w with serverOnline := false },
         [Event.netCall (s.serverUrl ++ "/redact"),
          Event.notice offlineNotice, Event.uiRefresh]) := by
  simp [redactFile, hon, hread]

theorem detect_failure_aborts_witness :
    redactFile S0 ⟨true, [("notes/a.md", FileContent.doc "hello")]⟩ noteFile
        (Except.error ()) "2024-01-01" true true
      = (⟨false, [("notes/a.md", FileContent.doc "hello")]⟩,
         [Event.netCall ("http://localhost:8765" ++ "/redact"),
          Event.notice offlineNotice, Event.uiRefresh]) :=
  detect_failure_aborts S0 ⟨true, [("notes/a.md", FileContent.doc "hello")]⟩
    noteFile "hello" "2024-01-01" true true rfl (by decide)

/-- Claim C7: restoration against an existing but unparsable map file fails
with the map-corrupted Notice and aborts before any network call: nothing
is sent to the restore endpoint and no restored artifact is written (the
world is unchanged). -/
theorem corrupt_map_restoration (s : RedactorSettings) (w : World) (file : VFile)
    (rr : Except Unit RestoreResponse) (so : Bool)
    (hon : w.serverOnline = true)
    (hmap : Vault.lookup w.vault (mapPathFor s file.name) = some FileContent.corrupt) :
    restoreCurrentNote s w (some file) rr so
      = (w, [Event.notice "Redactor: map file is missing or corrupted."]) := by
  simp [restoreCurrentNote, hon, hmap, parseMapFile]

theorem corrupt_map_restoration_witness :
    restoreCurrentNote S0
        ⟨true, [(mapPathFor S0 "a.md", FileContent.corrupt),
                ("notes/a.md", FileContent.doc "hello")]⟩
        (some noteFile) (Except.ok ⟨"hello"⟩) true
      = (⟨true, [(mapPathFor S0 "a.md", FileContent.corrupt),
                 ("notes/a.md", FileContent.doc "hello")]⟩,
         [Event.notice "Redactor: map file is missing or corrupted."]) :=
  corrupt_map_restoration S0
    ⟨true, [(mapPathFor S0 "a.md", FileContent.corrupt),
            ("notes/a.md", FileContent.doc "hello")]⟩
    noteFile (Except.ok ⟨"hello"⟩) true rfl (by decide)

/-- Claim C8: the health state is a two-state machine. It is false
(OFFLINE) before the first check completes, and each poll sets it to true
exactly on probe success and to false on any probe failure — one probe
outcome suffices to flip it. The poll is a total function returning only a
state update and UI events, so a failed probe is recorded as state, never
propagated as an error, and the vault is never touched. -/
theorem health_two_state :
    initialServerOnline = false ∧
    (∀ (s : RedactorSettings) (w : World),
      updateServerStatus s w (Except.ok ())
        = ({ w with serverOnline := true },
           [Event.netCall (s.serverUrl ++ "/status"), Event.uiRefresh])) ∧
    (∀ (s : RedactorSettings) (w : World),
      updateServerStatus s w (Except.error ())
        = ({ w with serverOnline := false },
           [Event.netCall (s.serverUrl ++ "/status"), Event.uiRefresh])) :=
  ⟨rfl, fun _ _ => rfl, fun _ _ => rfl⟩

/-- Claim C10: inline redaction replaces the editor selection before the
map save is attempted; when the map save fails, the replacement stands (the
replaceSelection event precedes the Notice and nothing undoes it), the map
file is not updated (world unchanged), and the distinct save-failed Notice
is reported instead of the entity-count summary. -/
theorem selection_kept_on_map_save_failure (s : RedactorSettings) (w : World)
    (sel : String) (file : VFile) (r : RedactResponse) (now : String)
    (hon : w.serverOnline = true) (hsel : sel ≠ "") :
    redactSelectedText s w sel (some file) (Except.ok r) now false
      = (w, [Event.netCall (s.serverUrl ++ "/redact"),
             Event.replaceSelection r.redacted_text,
             Event.notice "Redactor: selection redacted but map save failed."]) := by
  simp [redactSelectedText, hon, hsel]

theorem selection_kept_on_map_save_failure_witness :
    redactSelectedText S0 ⟨true, []⟩ "John" (some noteFile)
        (Except.ok ⟨"[PERSON_1]", [("[PERSON_1]", "John")], [("PERSON", 1)]⟩)
        "2024-01-01" false
      = (⟨true, []⟩,
         [Event.netCall ("http://localhost:8765" ++ "/redact"),
          Event.replaceSelection "[PERSON_1]",
          Event.notice "Redactor: selection redacted but map save failed."]) :=
  selection_kept_on_map_save_failure S0 ⟨true, []⟩ "John" noteFile
    ⟨"[PERSON_1]", [("[PERSON_1]", "John")], [("PERSON", 1)]⟩
    "2024-01-01" rfl (by decide)

/-- Claim C2, counterexample: a concrete inline redaction where the
existing map binds [PERSON_1] to one value and the detect fragment binds it
to another. The full run shows the fragment value silently replacing the
existing one, with the only Notice being the ordinary entity-count summary
— no MergeConflict warning of any kind is surfaced. -/
theorem merge_conflict_counterexample :
    redactSelectedText S0
        ⟨true, [("redact/maps/a.md.map.json",
                 FileContent.mapJson ⟨"a.md", "2024-01-01", [("[PERSON_1]", "John Smith")]⟩)]⟩
        "Jane" (some noteFile)
        (Except.ok ⟨"[PERSON_1]", [("[PERSON_1]", "Jane Doe")], [("PERSON", 1)]⟩)
        "2024-01-02" true
      = (⟨true, [("redact/maps/a.md.map.json",
                  FileContent.mapJson ⟨"a.md", "2024-01-02", [("[PERSON_1]", "Jane Doe")]⟩)]⟩,
         [Event.netCall "http://localhost:8765/redact",
          Event.replaceSelection "[PERSON_1]",
          Event.write "redact/maps/a.md.map.json"
            (FileContent.mapJson ⟨"a.md", "2024-01-02", [("[PERSON_1]", "Jane Doe")]⟩),
          Event.notice "Redacted 1 entities in selection"]) := by
  decide

/-- Claim C2 (amended): when the existing map and the detect fragment
assign different values to the same token, inline redaction applies
last-writer-wins silently — the fragment value replaces the existing one
in the persisted map, and the emitted events are exactly the network call,
the selection replacement, the map write, and the entity-count summary
Notice, with no conflict warning of any kind. -/
theorem merge_conflict_silent_lww (s : RedactorSettings) (w : World)
    (sel : String) (file : VFile) (r : RedactResponse) (now : String)
    (mf : MapFile) (k v1 v2 : String)
    (hon : w.serverOnline = true) (hsel : sel ≠ "")
    (hmap : Vault.lookup w.vault (mapPathFor s file.name) = some (FileContent.mapJson mf))
    (h1 : Tokens.find mf.tokens k = some v1) (h2 : Tokens.find r.map k = some v2) :
    Tokens.find (mergeTokens mf.tokens r.map) k = some v2 ∧
    redactSelectedText s w sel (some file) (Except.ok r) now true
      = ({ w with vault := Vault.save w.vault (mapPathFor s file.name) (FileContent.mapJson ⟨file.name, now, mergeTokens mf.tokens r.map⟩) },
         [Event.netCall (s.serverUrl ++ "/redact"),
          Event.replaceSelection r.redacted_text,
          Event.write (mapPathFor s file.name)
            (FileContent.mapJson ⟨file.name, now, mergeTokens mf.tokens r.map⟩),
          Event.notice (selectionSummary r.entity_counts)]) := by
  constructor
  · rw [mergeTokens_find, h1, h2]
    rfl
  · simp [redactSelectedText, hon, hsel, hmap, parseMapTokens]

theorem merge_conflict_silent_lww_witness :
    Tokens.find (mergeTokens [("[PERSON_1]", "John Smith")] [("[PERSON_1]", "Jane Doe")])
        "[PERSON_1]"
      = some "Jane Doe" :=
  (merge_conflict_silent_lww S0
    ⟨true, [(mapPathFor S0 "a.md",
             FileContent.mapJson ⟨"a.md", "2024-01-01", [("[PERSON_1]", "John Smith")]⟩)]⟩
    "Jane" noteFile
    ⟨"[PERSON_1]", [("[PERSON_1]", "Jane Doe")], [("PERSON", 1)]⟩
    "2024-01-02"
    ⟨"a.md", "2024-01-01", [("[PERSON_1]", "John Smith")]⟩
    "[PERSON_1]" "John Smith" "Jane Doe"
    rfl (by decide) (by decide) (by decide) (by decide)).1

/-- Claim C9, counterexample: an inline redaction whose pre-existing map
file is corrupt produces exactly the same user-visible events as the same
run against a document with no map file at all, and its event list carries
only the entity-count summary Notice — the corruption is not made visible
to the reporting step in any way. -/
theorem corrupt_map_invisible_counterexample :
    (redactSelectedText S0
        ⟨true, [("redact/maps/a.md.map.json", FileContent.corrupt)]⟩
        "call 07911 123456" (some noteFile)
        (Except.ok ⟨"call [PHONE_1]", [("[PHONE_1]", "07911 123456")], [("PHONE", 1)]⟩)
        "2024-01-02" true).2
      = (redactSelectedText S0 ⟨true, []⟩
          "call 07911 123456" (some noteFile)
          (Except.ok ⟨"call [PHONE_1]", [("[PHONE_1]", "07911 123456")], [("PHONE", 1)]⟩)
          "2024-01-02" true).2
    ∧ (redactSelectedText S0
        ⟨true, [("redact/maps/a.md.map.json", FileContent.corrupt)]⟩
        "call 07911 123456" (some noteFile)
        (Except.ok ⟨"call [PHONE_1]", [("[PHONE_1]", "07911 123456")], [("PHONE", 1)]⟩)
        "2024-01-02" true).2
      = [Event.netCall "http://localhost:8765/redact",
         Event.replaceSelection "call [PHONE_1]",
         Event.write "redact/maps/a.md.map.json"
           (FileContent.mapJson ⟨"a.md", "2024-01-02", [("[PHONE_1]", "07911 123456")]⟩),
         Event.notice "Redacted 1 entities in selection"] := by
  constructor <;> decide

/-- Claim C9 (amended): when inline redaction finds a corrupt pre-existing
map file it tolerates it — the corrupt map is discarded, the merge starts
from the empty map (the persisted tokens are exactly the new fragment),
and the user action completes; however the corruption is not surfaced: the
emitted events are exactly the standard ones of a successful inline
redaction, with no corruption warning. -/
theorem corrupt_map_tolerated_silently (s : RedactorSettings) (w : World)
    (sel : String) (file : VFile) (r : RedactResponse) (now : String)
    (hon : w.serverOnline = true) (hsel : sel ≠ "")
    (hmap : Vault.lookup w.vault (mapPathFor s file.name) = some FileContent.corrupt) :
    redactSelectedText s w sel (some file) (Except.ok r) now true
      = ({ w with vault := Vault.save w.vault (mapPathFor s file.name) (FileContent.mapJson ⟨file.name, now, r.map⟩) },
         [Event.netCall (s.serverUrl ++ "/redact"),
          Event.replaceSelection r.redacted_text,
          Event.write (mapPathFor s file.name)
            (FileContent.mapJson ⟨file.name, now, r.map⟩),
          Event.notice (selectionSummary r.entity_counts)]) := by
  simp [redactSelectedText, hon, hsel, hmap, parseMapTokens, mergeTokens_nil]

theorem corrupt_map_tolerated_silently_witness :
    redactSelectedText S0
        ⟨true, [(mapPathFor S0 "a.md", FileContent.corrupt)]⟩
        "call 07911 123456" (some noteFile)
        (Except.ok ⟨"call [PHONE_1]", [("[PHONE_1]", "07911 123456")], [("PHONE", 1)]⟩)
        "2024-01-02" true
      = (⟨true, [(mapPathFor S0 "a.md",
                  FileContent.mapJson ⟨"a.md", "2024-01-02", [("[PHONE_1]", "07911 123456")]⟩)]⟩,
         [Event.netCall ("http://localhost:8765" ++ "/redact"),
          Event.replaceSelection "call [PHONE_1]",
          Event.write (mapPathFor S0 "a.md")
            (FileContent.mapJson ⟨"a.md", "2024-01-02", [("[PHONE_1]", "07911 123456")]⟩),
          Event.notice (selectionSummary [("PHONE", 1)])]) :=
  corrupt_map_tolerated_silently S0
    ⟨true, [(mapPathFor S0 "a.md", FileContent.corrupt)]⟩
    "call 07911 123456" noteFile
    ⟨"call [PHONE_1]", [("[PHONE_1]", "07911 123456")], [("PHONE", 1)]⟩
    "2024-01-02" rfl (by decide) (by decide)
